import Mathlib

/-!
Verification development for the real-time synchronization and
conflict-resolution subsystem of the literary-circle repository
(js/features/realtime.js together with the entity store in js/core/state.js).

JavaScript data structures are embedded as follows: a JS Map (or plain
object used as a string-keyed dictionary) becomes an association list
that preserves insertion order, `Map.set` replaces in place or appends,
`Map.delete` removes the entry; a JS Set built by spreading an array
becomes first-occurrence deduplication; `null`/`undefined` become
`Option`; timestamps become `Nat`.
-/

/-- JS Map.set on a string-keyed association list: replace the value at an
existing key in place, otherwise append a new entry (insertion order). -/
def setKey {α : Type} : List (String × α) → String → α → List (String × α)
  | [], k, v => [(k, v)]
  | (k', v') :: rest, k, v =>
    if k' = k then (k, v) :: rest else (k', v') :: setKey rest k v

/-- JS Map.delete on a string-keyed association list: drop the first entry
with the given key. -/
def removeKey {α : Type} : List (String × α) → String → List (String × α)
  | [], _ => []
  | (k', v') :: rest, k =>
    if k' = k then rest else (k', v') :: removeKey rest k

/-- Worker for first-occurrence deduplication: `seen` holds values already
emitted.  This is the effect of the JS expression `[...new Set(list)]`,
which iterates the array and keeps the first occurrence of each value. -/
def dedupAux : List String → List String → List String
  | _, [] => []
  | seen, x :: xs =>
    if seen.contains x then dedupAux seen xs else x :: dedupAux (x :: seen) xs

/-- The JS expression `[...new Set(list)]`: keep the first occurrence of
each value, preserving order. -/
def jsSetDedup (l : List String) : List String := dedupAux [] l

/-- The merged book list computed by both conflict resolvers:
the JS expression is `[...new Set([...localBooks, ...remoteBooks])]`. -/
def mergeBooks (localBooks remoteBooks : List String) : List String :=
  jsSetDedup (localBooks ++ remoteBooks)

/-- A book club as held in the local entity store (js/core/state.js).
The JS object fields are id, name, books, currentSelection, createdAt,
userId, isOwner, isShared.  The userId field is always a concrete user-id
string at every call site; the empty string stands for the JS falsy
values (missing / undefined) in the `clubData.userId || userId` fallback
inside setBookClub. -/
structure Club where
  id : String
  name : String
  books : List String
  currentSelection : Option String
  createdAt : Nat
  userId : String
  isOwner : Bool
  isShared : Bool
deriving DecidableEq

/-- A row of the remote book_clubs table as delivered in a change
notification payload (snake_case columns in the source). -/
structure RemoteRecord where
  id : String
  name : String
  books : Option (List String)
  current_selection : Option String
  created_at : Nat
  updated_at : Nat
  user_id : String
  shared_users : Option (List String)
deriving DecidableEq

/-- The eventType of a postgres_changes payload. -/
inductive EvType where
  | INSERT
  | UPDATE
  | DELETE
  | unknownEvent
deriving DecidableEq

/-- A change-notification payload: eventType together with the new and
old records.  For DELETE events the provider sends an empty new record,
which behaves like none on every field access in the handler. -/
structure Payload where
  eventType : EvType
  newRec : Option RemoteRecord
  oldRec : Option RemoteRecord
deriving DecidableEq

/-- The mutable state the data path touches: the entity store
(appState.bookClubs, insertion-ordered), the currently focused club id
(appState.currentClubId) and the Last-Sync-Time index
(realtimeManager.lastUpdate). -/
structure SyncState where
  bookClubs : List (String × Club)
  currentClubId : Option String
  lastUpdate : List (String × Nat)
deriving DecidableEq

/-- UserManager.isOwner (js/core/user.js, concatenated into
src/js/ui/components.js): the club belongs to the current user when its
userId matches or its stored isOwner flag is true. -/
def userIsOwner (uid : String) (club : Club) : Bool :=
  club.userId == uid || club.isOwner

/-- UserManager.isSharedWithUser (same file): the stored isShared flag,
or any club whose userId is a truthy (nonempty) id of another user. -/
def isSharedWithUser (uid : String) (club : Club) : Bool :=
  club.isShared || (club.userId != uid && club.userId != "")

/-- UserManager.hasAccess (same file): owner or shared. -/
def userHasAccess (uid : String) (club : Club) : Bool :=
  userIsOwner uid club || isSharedWithUser uid club

/-- AppState.getBookClub: return the stored club only when the current
user has access to it. -/
def getBookClub (uid : String) (s : SyncState) (clubId : String) : Option Club :=
  match s.bookClubs.lookup clubId with
  | some club => if userHasAccess uid club then some club else none
  | none => none

/-- AppState.setBookClub: store the club after re-deriving the ownership
fields (userId fallback to the current user when falsy, isOwner,
isShared). -/
def setBookClub (uid : String) (s : SyncState) (clubId : String) (c : Club) : SyncState :=
  let enhanced : Club :=
    { c with
      userId := if c.userId = "" then uid else c.userId
      isOwner := (c.userId == uid) || c.isOwner
      isShared := (c.userId != uid) && (c.userId != "") }
  { s with bookClubs := setKey s.bookClubs clubId enhanced }

/-- AppState.removeBookClub: delete only when the current user is the
owner; on success also clear currentClubId if it pointed at the deleted
club.  Returns the success flag. -/
def removeBookClub (uid : String) (s : SyncState) (clubId : String) : SyncState × Bool :=
  match s.bookClubs.lookup clubId with
  | none => (s, false)
  | some club =>
    if userIsOwner uid club then
      ({ bookClubs := removeKey s.bookClubs clubId
         currentClubId := if s.currentClubId = some clubId then none else s.currentClubId
         lastUpdate := s.lastUpdate }, true)
    else
      (s, false)

/-- The two conflict kinds detectConflict can report. -/
inductive ConflictType where
  | concurrent_modification
  | book_list_conflict
deriving DecidableEq

/-- The transient conflict record built by detectConflict (conflictTime
omitted: it is a wall-clock Date used only for logging). -/
structure Conflict where
  ctype : ConflictType
  localClub : Club
  remoteRecord : RemoteRecord
  localOnly : List String
  remoteOnly : List String
deriving DecidableEq

/-- The book-list part of detectConflict: both sides added distinct
items since last sync.  localBooks and remoteBooks are JS Sets, spread
back into arrays for the filters. -/
def detectBookListConflict (localClub : Club) (r : RemoteRecord) : Option Conflict :=
  let localSet := jsSetDedup localClub.books
  let remoteSet := jsSetDedup (r.books.getD [])
  let localOnly := localSet.filter (fun b => !(remoteSet.contains b))
  let remoteOnly := remoteSet.filter (fun b => !(localSet.contains b))
  if localOnly ≠ [] ∧ remoteOnly ≠ [] then
    some { ctype := ConflictType.book_list_conflict, localClub := localClub,
           remoteRecord := r, localOnly := localOnly, remoteOnly := remoteOnly }
  else
    none

/-- detectConflict (realtime.js): no local club means no conflict; a
Last-Sync-Time watermark strictly newer than the remote updated_at means
concurrent modification; otherwise check for two-sided book-list
divergence. -/
def detectConflict (uid : String) (s : SyncState) (r : RemoteRecord) : Option Conflict :=
  match getBookClub uid s r.id with
  | none => none
  | some localClub =>
    match s.lastUpdate.lookup r.id with
    | some t =>
      if r.updated_at < t then
        some { ctype := ConflictType.concurrent_modification, localClub := localClub,
               remoteRecord := r, localOnly := [], remoteOnly := [] }
      else
        detectBookListConflict localClub r
    | none => detectBookListConflict localClub r

/-- The JS expression `remoteRecord.current_selection || localClub.currentSelection`:
the remote value wins unless it is falsy (null, undefined or the empty
string). -/
def jsOrSelection (remote loc : Option String) : Option String :=
  match remote with
  | some v => if v = "" then loc else some v
  | none => loc

/-- resolveConcurrentModification: merge the book lists, take the name
from the remote record, keep every other local field, apply the JS-or
rule to currentSelection, and write back through setBookClub. -/
def resolveConcurrentModification (uid : String) (s : SyncState) (c : Conflict) : SyncState :=
  let mergedBooks := mergeBooks c.localClub.books (c.remoteRecord.books.getD [])
  let mergedClub : Club :=
    { c.localClub with
      name := c.remoteRecord.name
      books := mergedBooks
      currentSelection := jsOrSelection c.remoteRecord.current_selection c.localClub.currentSelection }
  setBookClub uid s c.localClub.id mergedClub

/-- resolveBookListConflict: merge the book lists and keep every other
local field, then write back through setBookClub. -/
def resolveBookListConflict (uid : String) (s : SyncState) (c : Conflict) : SyncState :=
  let mergedBooks := mergeBooks c.localClub.books (c.remoteRecord.books.getD [])
  setBookClub uid s c.localClub.id { c.localClub with books := mergedBooks }

/-- resolveConflict: dispatch on the conflict kind. -/
def resolveConflict (uid : String) (s : SyncState) (c : Conflict) : SyncState :=
  match c.ctype with
  | ConflictType.concurrent_modification => resolveConcurrentModification uid s c
  | ConflictType.book_list_conflict => resolveBookListConflict uid s c

/-- handleClubInsertOrUpdate: drop the record when the current user has
neither ownership nor shared access; otherwise rebuild the local club
from the payload (deriving isOwner and isShared from user_id) and write
it through setBookClub. -/
def handleClubInsertOrUpdate (uid : String) (s : SyncState) (r : RemoteRecord) : SyncState :=
  let hasAccess := (r.user_id == uid) ||
    (match r.shared_users with
     | some us => us.contains uid
     | none => false)
  if hasAccess then
    let clubData : Club :=
      { id := r.id
        name := r.name
        books := r.books.getD []
        currentSelection := r.current_selection
        createdAt := r.created_at
        userId := r.user_id
        isOwner := r.user_id == uid
        isShared := r.user_id != uid }
    setBookClub uid s r.id clubData
  else
    s

/-- handleClubDelete: no-op when the club is not visible locally;
otherwise call AppState.removeBookClub (whose result is ignored by the
source) and signal navigation-away when the focused club id still equals
the deleted id afterwards.  The Bool is that navigation signal. -/
def handleClubDelete (uid : String) (s : SyncState) (old : RemoteRecord) : SyncState × Bool :=
  match getBookClub uid s old.id with
  | none => (s, false)
  | some _ =>
    let s1 := (removeBookClub uid s old.id).1
    (s1, s1.currentClubId = some old.id)

/-- The outcome of one handleBookClubUpdate call: the new state, whether
navigation-away was signalled (DELETE of the focused club) and whether
the notification was routed to the conflict resolver. -/
structure DispatchOut where
  state : SyncState
  navAway : Bool
  mergeResolved : Bool
deriving DecidableEq

/-- The key for the Last-Sync-Time write at the end of
handleBookClubUpdate: the JS expression `newRecord?.id || oldRecord?.id`
(none models both a missing record and a falsy id). -/
def lastUpdateKey (p : Payload) : Option String :=
  match p.newRec with
  | some r => if r.id = "" then (p.oldRec.map (fun o => o.id)) else some r.id
  | none => p.oldRec.map (fun o => o.id)

/-- The `this.lastUpdate.set(newRecord?.id || oldRecord?.id, new Date())`
line at the end of handleBookClubUpdate. -/
def touchLastUpdate (now : Nat) (p : Payload) (s : SyncState) : SyncState :=
  match lastUpdateKey p with
  | some k => { s with lastUpdate := setKey s.lastUpdate k now }
  | none => s

/-- handleBookClubUpdate: the change dispatcher.  Order of the source:
self-echo suppression on newRecord.user_id, then conflict detection
(with early return, so the watermark is not advanced on the conflict
path), then the eventType switch, then the Last-Sync-Time write.  The
branches where the source would dereference a missing record raise a
TypeError that the surrounding try/catch swallows before the watermark
line, so they leave the state unchanged. -/
def handleBookClubUpdate (uid : String) (now : Nat) (s : SyncState) (p : Payload) :
    DispatchOut :=
  let isEcho :=
    match p.newRec with
    | some r => r.user_id == uid
    | none => false
  if isEcho then
    { state := s, navAway := false, mergeResolved := false }
  else
    let conflict :=
      match p.newRec with
      | some r => detectConflict uid s r
      | none => none
    match conflict with
    | some c =>
      { state := resolveConflict uid s c, navAway := false, mergeResolved := true }
    | none =>
      match p.eventType, p.newRec, p.oldRec with
      | EvType.INSERT, some r, _ =>
        { state := touchLastUpdate now p (handleClubInsertOrUpdate uid s r),
          navAway := false, mergeResolved := false }
      | EvType.UPDATE, some r, _ =>
        { state := touchLastUpdate now p (handleClubInsertOrUpdate uid s r),
          navAway := false, mergeResolved := false }
      | EvType.INSERT, none, _ =>
        { state := s, navAway := false, mergeResolved := false }
      | EvType.UPDATE, none, _ =>
        { state := s, navAway := false, mergeResolved := false }
      | EvType.DELETE, _, some o =>
        let (s1, nav) := handleClubDelete uid s o
        { state := touchLastUpdate now p s1, navAway := nav, mergeResolved := false }
      | EvType.DELETE, _, none =>
        { state := s, navAway := false, mergeResolved := false }
      | EvType.unknownEvent, _, _ =>
        { state := touchLastUpdate now p s, navAway := false, mergeResolved := false }

/-- One entry of the subscription registry (the channel handle is
identified by its club id; subscribedAt is irrelevant to the claims). -/
structure SubEntry where
  clubId : String
  status : String
deriving DecidableEq

/-- The subscription-manager state of RealtimeManager: the collaborative
flag (supabaseManager.isCollaborativeMode, fixed by configuration), the
subscription registry, the presence channels, the connection state, the
single reconnect counter, and the reconnect timers currently scheduled
by setTimeout (club id and computed delay in ms).  The source keeps no
handle to those timers. -/
structure RtState where
  collab : Bool
  subscriptions : List (String × SubEntry)
  presenceChannels : List String
  connectionState : String
  reconnectAttempts : Nat
  pendingTimers : List (String × Nat)
deriving DecidableEq

/-- Externally visible actions of one manager call: channels opened
against the provider, presence channels opened, channels closed, full
resync passes (storageManager.loadData plus UI refresh), and terminal
give-up notices. -/
structure RtEffects where
  channelCreations : List String
  presenceCreations : List String
  channelClosures : List String
  resyncs : Nat
  terminalNotices : Nat
deriving DecidableEq

/-- No externally visible action. -/
def noEff : RtEffects :=
  { channelCreations := [], presenceCreations := [], channelClosures := [],
    resyncs := 0, terminalNotices := 0 }

/-- Sequential composition of effect records. -/
def mergeEff (a b : RtEffects) : RtEffects :=
  { channelCreations := a.channelCreations ++ b.channelCreations
    presenceCreations := a.presenceCreations ++ b.presenceCreations
    channelClosures := a.channelClosures ++ b.channelClosures
    resyncs := a.resyncs + b.resyncs
    terminalNotices := a.terminalNotices + b.terminalNotices }

/-- RealtimeManager field maxReconnectAttempts. -/
def maxReconnectAttempts : Nat := 5

/-- RealtimeManager field reconnectDelay (ms). -/
def reconnectDelay : Nat := 1000

/-- The initial manager state built by the constructor. -/
def rtInit (collab : Bool) : RtState :=
  { collab := collab, subscriptions := [], presenceChannels := [],
    connectionState := "disconnected", reconnectAttempts := 0, pendingTimers := [] }

/-- subscribeToBookClub: refuse outside collaborative mode; return true
without touching anything when the club is already registered; otherwise
open the channel, register the subscription as connecting, and set up
the presence channel. -/
def subscribeToBookClub (s : RtState) (clubId : String) : RtState × Bool × RtEffects :=
  if s.collab = false then
    (s, false, noEff)
  else if (s.subscriptions.lookup clubId).isSome then
    (s, true, noEff)
  else
    let s1 := { s with
      subscriptions := s.subscriptions ++ [(clubId, { clubId := clubId, status := "connecting" })]
      presenceChannels :=
        if s.presenceChannels.contains clubId then s.presenceChannels
        else s.presenceChannels ++ [clubId] }
    (s1, true,
      { noEff with channelCreations := [clubId], presenceCreations := [clubId] })

/-- unsubscribeFromBookClub: false when not subscribed; otherwise close
the channel, drop the registry entry and the presence channel.  The
source never cancels a pending reconnect timer here (it has no handle to
it), so pendingTimers is untouched. -/
def unsubscribeFromBookClub (s : RtState) (clubId : String) : RtState × Bool × RtEffects :=
  match s.subscriptions.lookup clubId with
  | none => (s, false, noEff)
  | some _ =>
    let s1 := { s with
      subscriptions := removeKey s.subscriptions clubId
      presenceChannels := s.presenceChannels.filter (fun k => k ≠ clubId) }
    (s1, true, { noEff with channelClosures := [clubId] })

/-- attemptReconnect: give up with the terminal notice at the cap,
otherwise bump the single manager-wide counter and schedule a retry
after reconnectDelay * 2 ^ (attempts - 1) ms. -/
def attemptReconnect (s : RtState) (clubId : String) : RtState × RtEffects :=
  if s.reconnectAttempts ≥ maxReconnectAttempts then
    (s, { noEff with terminalNotices := 1 })
  else
    let a := s.reconnectAttempts + 1
    ({ s with
        reconnectAttempts := a
        pendingTimers := s.pendingTimers ++ [(clubId, reconnectDelay * 2 ^ (a - 1))] },
      noEff)

/-- handleSubscriptionError: drop the failed subscription and attempt a
reconnect. -/
def handleSubscriptionError (s : RtState) (clubId : String) : RtState × RtEffects :=
  attemptReconnect { s with subscriptions := removeKey s.subscriptions clubId } clubId

/-- handleSubscriptionStatus: record the status on the registry entry,
then react: SUBSCRIBED resets the reconnect counter, CHANNEL_ERROR goes
through handleSubscriptionError, TIMED_OUT retries directly, CLOSED only
updates the connection state. -/
def handleSubscriptionStatus (s : RtState) (clubId status : String) : RtState × RtEffects :=
  let s0 :=
    match s.subscriptions.lookup clubId with
    | some sub => { s with subscriptions := setKey s.subscriptions clubId { sub with status := status } }
    | none => s
  if status = "SUBSCRIBED" then
    ({ s0 with connectionState := "connected", reconnectAttempts := 0 }, noEff)
  else if status = "CHANNEL_ERROR" then
    handleSubscriptionError { s0 with connectionState := "error" } clubId
  else if status = "TIMED_OUT" then
    attemptReconnect { s0 with connectionState := "timeout" } clubId
  else if status = "CLOSED" then
    ({ s0 with connectionState := "disconnected" }, noEff)
  else
    (s0, noEff)

/-- A scheduled reconnect timer firing: the setTimeout callback in
attemptReconnect runs subscribeToBookClub unconditionally.  Firing
consumes the timer; a timer that was never scheduled cannot fire. -/
def fireReconnectTimer (s : RtState) (clubId : String) : RtState × Bool × RtEffects :=
  if (s.pendingTimers.lookup clubId).isSome then
    subscribeToBookClub { s with pendingTimers := removeKey s.pendingTimers clubId } clubId
  else
    (s, false, noEff)

/-- handleConnectionRestored: on the browser online event, call
subscribeToBookClub for every registered club id, then force one full
resync (storageManager.loadData plus the two UI refresh calls). -/
def handleConnectionRestored (s : RtState) : RtState × RtEffects :=
  let keys := s.subscriptions.map (fun p => p.1)
  let step := fun (acc : RtState × RtEffects) (k : String) =>
    let (s2, _, e) := subscribeToBookClub acc.1 k
    (s2, mergeEff acc.2 e)
  let (s1, eff) := keys.foldl step (s, noEff)
  (s1, { eff with resyncs := eff.resyncs + 1 })

/-- The store-wide no-duplicate-items invariant. -/
def storeNodup (s : SyncState) : Prop := ∀ p ∈ s.bookClubs, p.2.books.Nodup

/-- n consecutive reconnect failures for club X starting from a fresh
manager in collaborative mode. -/
def reconnectRun : Nat → RtState
  | 0 => rtInit true
  | n + 1 => (attemptReconnect (reconnectRun n) "X").1

/-- Local copy, in the store of user bob, of a club owned by alice and
shared with bob. -/
def exClubShared : Club :=
  { id := "c1", name := "Local Name", books := ["A"], currentSelection := none,
    createdAt := 1, userId := "alice", isOwner := false, isShared := true }

/-- Empty data-path state. -/
def exStateEmpty : SyncState :=
  { bookClubs := [], currentClubId := none, lastUpdate := [] }

/-- Data-path state of user bob: the shared club is stored and focused,
no watermark yet. -/
def exStateOne : SyncState :=
  { bookClubs := [("c1", exClubShared)], currentClubId := some "c1", lastUpdate := [] }

/-- Like exStateOne but with a Last-Sync-Time watermark of 20 for c1. -/
def exStateWm : SyncState :=
  { bookClubs := [("c1", exClubShared)], currentClubId := none,
    lastUpdate := [("c1", 20)] }

/-- A remote row for c1 carrying a duplicated book list, updated at 10. -/
def exRecDup : RemoteRecord :=
  { id := "c1", name := "Remote Name", books := some ["A", "B", "B"],
    current_selection := none, created_at := 2, updated_at := 10,
    user_id := "alice", shared_users := some ["bob"] }

/-- INSERT notification carrying exRecDup. -/
def exPayloadIns : Payload :=
  { eventType := EvType.INSERT, newRec := some exRecDup, oldRec := none }

/-- DELETE notification for c1 (the provider sends an empty new record,
modelled as none). -/
def exPayloadDel : Payload :=
  { eventType := EvType.DELETE, newRec := none,
    oldRec := some { id := "c1", name := "Remote Name", books := some [],
                     current_selection := none, created_at := 2, updated_at := 10,
                     user_id := "alice", shared_users := some ["bob"] } }

/-- Local side of a concurrent-modification conflict. -/
def exClubLocalCM : Club :=
  { id := "c1", name := "Local Name", books := ["A", "B"], currentSelection := some "S",
    createdAt := 1, userId := "alice", isOwner := false, isShared := true }

/-- Remote side of a concurrent-modification conflict: different name
and created_at, no current_selection. -/
def exRecRemoteCM : RemoteRecord :=
  { id := "c1", name := "Remote Name", books := some ["B", "C"],
    current_selection := none, created_at := 2, updated_at := 10,
    user_id := "alice", shared_users := some ["bob"] }

/-- A concurrent-modification conflict record over the two fixtures. -/
def exConflictCM : Conflict :=
  { ctype := ConflictType.concurrent_modification, localClub := exClubLocalCM,
    remoteRecord := exRecRemoteCM, localOnly := [], remoteOnly := [] }

/-- Manager with two active subscriptions X and Y. -/
def exRtStateXY : RtState :=
  { rtInit true with
    subscriptions := [("X", { clubId := "X", status := "SUBSCRIBED" }),
                      ("Y", { clubId := "Y", status := "SUBSCRIBED" })] }

/-- Manager that subscribed to club C and then received TIMED_OUT, which
scheduled a reconnect timer. -/
def exRtTimedOut : RtState :=
  (handleSubscriptionStatus (subscribeToBookClub (rtInit true) "C").1 "C" "TIMED_OUT").1

/-- Manager with one established subscription X. -/
def exRtSubbed : RtState :=
  { rtInit true with subscriptions := [("X", { clubId := "X", status := "SUBSCRIBED" })] }

theorem lookup_setKey_self {α : Type} (l : List (String × α)) (k : String) (v : α) :
    (setKey l k v).lookup k = some v := by
  induction l with
  | nil => simp [setKey, List.lookup]
  | cons p rest ih =>
    by_cases h : p.1 = k
    · simp [setKey, h, List.lookup]
    · simp only [setKey]
      rw [if_neg h]
      have hk : (k == p.1) = false := by
        exact beq_false_of_ne (fun hq => h hq.symm)
      simp [List.lookup, hk, ih]

theorem setKey_forall {α : Type} (P : String × α → Prop) (l : List (String × α))
    (k : String) (v : α) (hl : ∀ p ∈ l, P p) (hv : P (k, v)) :
    ∀ p ∈ setKey l k v, P p := by
  induction l with
  | nil => simpa [setKey] using hv
  | cons q rest ih =>
    intro p hp
    simp only [setKey] at hp
    by_cases h : q.1 = k
    · rw [if_pos h] at hp
      rcases List.mem_cons.mp hp with hp | hp
      · exact hp ▸ hv
      · exact hl p (List.mem_cons_of_mem q hp)
    · rw [if_neg h] at hp
      rcases List.mem_cons.mp hp with hp | hp
      · exact hp ▸ hl q (List.mem_cons_self q rest)
      · exact ih (fun r hr => hl r (List.mem_cons_of_mem q hr)) p hp

theorem removeKey_forall {α : Type} (P : String × α → Prop) (l : List (String × α))
    (k : String) (hl : ∀ p ∈ l, P p) :
    ∀ p ∈ removeKey l k, P p := by
  induction l with
  | nil => simp [removeKey]
  | cons q rest ih =>
    intro p hp
    simp only [removeKey] at hp
    by_cases h : q.1 = k
    · rw [if_pos h] at hp
      exact hl p (List.mem_cons_of_mem q hp)
    · rw [if_neg h] at hp
      rcases List.mem_cons.mp hp with hp | hp
      · exact hp ▸ hl q (List.mem_cons_self q rest)
      · exact ih (fun r hr => hl r (List.mem_cons_of_mem q hr)) p hp

theorem mem_dedupAux (xs : List String) :
    ∀ (seen : List String) (x : String), x ∈ dedupAux seen xs ↔ (x ∈ xs ∧ ¬ x ∈ seen) := by
  induction xs with
  | nil => intro seen x; simp [dedupAux]
  | cons y ys ih =>
    intro seen x
    simp only [dedupAux]
    by_cases hy : y ∈ seen
    · rw [if_pos (List.elem_eq_true_of_mem hy)]
      rw [ih seen x]
      constructor
      · rintro ⟨hx, hs⟩
        exact ⟨List.mem_cons_of_mem y hx, hs⟩
      · rintro ⟨hx, hs⟩
        rcases List.mem_cons.mp hx with rfl | hx
        · exact absurd hy hs
        · exact ⟨hx, hs⟩
    · rw [if_neg (by simpa using hy)]
      constructor
      · intro hx
        rcases List.mem_cons.mp hx with rfl | hx
        · exact ⟨List.mem_cons_self x ys, hy⟩
        · rcases (ih (y :: seen) x).mp hx with ⟨hx1, hx2⟩
          refine ⟨List.mem_cons_of_mem y hx1, fun hs => hx2 (List.mem_cons_of_mem y hs)⟩
      · rintro ⟨hx, hs⟩
        rcases List.mem_cons.mp hx with rfl | hx
        · exact List.mem_cons_self x _
        · by_cases hxy : x = y
          · exact hxy ▸ List.mem_cons_self y _
          · refine List.mem_cons_of_mem y ((ih (y :: seen) x).mpr ⟨hx, ?_⟩)
            intro hmem
            rcases List.mem_cons.mp hmem with h | h
            · exact hxy h
            · exact hs h

theorem nodup_dedupAux (xs : List String) :
    ∀ seen : List String, (dedupAux seen xs).Nodup := by
  induction xs with
  | nil => intro seen; simp [dedupAux]
  | cons y ys ih =>
    intro seen
    simp only [dedupAux]
    by_cases hy : y ∈ seen
    · rw [if_pos (by simpa using hy)]; exact ih seen
    · rw [if_neg (by simpa using hy)]
      refine List.nodup_cons.mpr ⟨?_, ih (y :: seen)⟩
      intro hmem
      exact ((mem_dedupAux ys (y :: seen) y).mp hmem).2 (List.mem_cons_self y seen)

theorem nodup_jsSetDedup (l : List String) : (jsSetDedup l).Nodup :=
  nodup_dedupAux l []

theorem mem_jsSetDedup (l : List String) (x : String) : x ∈ jsSetDedup l ↔ x ∈ l := by
  rw [jsSetDedup, mem_dedupAux]
  simp

theorem dedupAux_congr_seen (xs : List String) :
    ∀ s₁ s₂ : List String, (∀ x, x ∈ s₁ ↔ x ∈ s₂) → dedupAux s₁ xs = dedupAux s₂ xs := by
  induction xs with
  | nil => intro s₁ s₂ _; simp [dedupAux]
  | cons y ys ih =>
    intro s₁ s₂ hext
    simp only [dedupAux]
    by_cases hy : y ∈ s₁
    · rw [if_pos (List.elem_eq_true_of_mem hy),
        if_pos (List.elem_eq_true_of_mem ((hext y).mp hy))]
      exact ih s₁ s₂ hext
    · have hy₂ : ¬ y ∈ s₂ := fun h => hy ((hext y).mpr h)
      rw [if_neg (by simpa using hy), if_neg (by simpa using hy₂)]
      refine congrArg (y :: ·) (ih (y :: s₁) (y :: s₂) ?_)
      intro x
      simp [hext x]

theorem dedupAux_filter_seen (xs : List String) (s₁ : List String) :
    ∀ s₂ : List String,
      dedupAux s₂ (xs.filter (fun x => !(s₁.contains x))) = dedupAux (s₁ ++ s₂) xs := by
  induction xs with
  | nil => intro s₂; simp [dedupAux]
  | cons y ys ih =>
    intro s₂
    rw [List.filter_cons]
    by_cases h₁ : y ∈ s₁
    · rw [if_neg (by simpa using h₁)]
      simp only [dedupAux]
      rw [if_pos (by simp [List.mem_append]; exact Or.inl h₁)]
      exact ih s₂
    · rw [if_pos (by simpa using h₁)]
      by_cases h₂ : y ∈ s₂
      · simp only [dedupAux]
        rw [if_pos (by simpa using h₂),
          if_pos (by simp [List.mem_append]; exact Or.inr h₂)]
        exact ih s₂
      · have hns : ¬ y ∈ s₁ ++ s₂ := by
          simp [List.mem_append]
          exact ⟨h₁, h₂⟩
        simp only [dedupAux]
        rw [if_neg (by simpa using h₂), if_neg (by simpa using hns)]
        refine congrArg (y :: ·) ?_
        rw [ih (y :: s₂)]
        exact dedupAux_congr_seen ys (s₁ ++ y :: s₂) (y :: (s₁ ++ s₂)) (by intro x; simp; tauto)

theorem dedupAux_append_nodup (l : List String) :
    ∀ (r seen : List String), l.Nodup → (∀ y ∈ l, ¬ y ∈ seen) →
      dedupAux seen (l ++ r) = l ++ dedupAux (l.reverse ++ seen) r := by
  induction l with
  | nil => intro r seen _ _; simp
  | cons x xs ih =>
    intro r seen hnd hs
    have hx : ¬ x ∈ seen := hs x (List.mem_cons_self x xs)
    show dedupAux seen (x :: (xs ++ r)) = (x :: xs) ++ dedupAux ((x :: xs).reverse ++ seen) r
    simp only [dedupAux]
    rw [if_neg (by simpa using hx)]
    have hnd' : xs.Nodup := (List.nodup_cons.mp hnd).2
    have hxnotxs : ¬ x ∈ xs := (List.nodup_cons.mp hnd).1
    have hs' : ∀ y ∈ xs, ¬ y ∈ x :: seen := by
      intro y hy
      intro hmem
      rcases List.mem_cons.mp hmem with rfl | hmem
      · exact hxnotxs hy
      · exact hs y (List.mem_cons_of_mem x hy) hmem
    rw [ih r (x :: seen) hnd' hs']
    rw [List.reverse_cons, List.append_assoc]
    simp

theorem mem_mergeBooks (l r : List String) (x : String) :
    x ∈ mergeBooks l r ↔ x ∈ l ∨ x ∈ r := by
  rw [mergeBooks, mem_jsSetDedup, List.mem_append]

theorem nodup_mergeBooks (l r : List String) : (mergeBooks l r).Nodup :=
  nodup_jsSetDedup (l ++ r)

theorem mergeBooks_eq_append (l r : List String) (hl : l.Nodup) :
    mergeBooks l r = l ++ jsSetDedup (r.filter (fun x => !(l.contains x))) := by
  rw [mergeBooks, jsSetDedup,
    dedupAux_append_nodup l r [] hl (by intro y _ h; simp at h)]
  refine congrArg (l ++ ·) ?_
  rw [jsSetDedup, List.append_nil]
  have h := dedupAux_filter_seen r l.reverse []
  rw [List.append_nil] at h
  rw [← h]
  refine congrArg (dedupAux []) (List.filter_congr ?_)
  intro x _
  simp

theorem dedupAux_append_general (l : List String) :
    ∀ (r seen : List String),
      dedupAux seen (l ++ r) = dedupAux seen l ++ dedupAux (l ++ seen) r := by
  induction l with
  | nil =>
    intro r seen
    simp [dedupAux]
  | cons x xs ih =>
    intro r seen
    show dedupAux seen (x :: (xs ++ r)) = dedupAux seen (x :: xs) ++ dedupAux (x :: xs ++ seen) r
    simp only [dedupAux]
    by_cases hx : x ∈ seen
    · have hc : (seen.contains x) = true := by simpa using hx
      rw [if_pos hc, if_pos hc]
      rw [ih r seen]
      refine congrArg (dedupAux seen xs ++ ·) ?_
      refine dedupAux_congr_seen r (xs ++ seen) (x :: xs ++ seen) ?_
      intro y
      constructor
      · intro hy
        rcases List.mem_append.mp hy with hy | hy
        · exact List.mem_cons_of_mem x (List.mem_append.mpr (Or.inl hy))
        · exact List.mem_cons_of_mem x (List.mem_append.mpr (Or.inr hy))
      · intro hy
        rcases List.mem_cons.mp hy with rfl | hy
        · exact List.mem_append.mpr (Or.inr hx)
        · exact hy
    · have hc : ¬ (seen.contains x) = true := by simpa using hx
      rw [if_neg hc, if_neg hc]
      rw [ih r (x :: seen)]
      refine congrArg (fun t => x :: (dedupAux (x :: seen) xs ++ t)) ?_
      refine dedupAux_congr_seen r (xs ++ x :: seen) (x :: xs ++ seen) ?_
      intro y
      constructor
      · intro hy
        rcases List.mem_append.mp hy with hy | hy
        · exact List.mem_cons_of_mem x (List.mem_append.mpr (Or.inl hy))
        · rcases List.mem_cons.mp hy with rfl | hy
          · exact List.mem_cons_self y _
          · exact List.mem_cons_of_mem x (List.mem_append.mpr (Or.inr hy))
      · intro hy
        rcases List.mem_cons.mp hy with rfl | hy
        · exact List.mem_append.mpr (Or.inr (List.mem_cons_self y _))
        · rcases List.mem_append.mp hy with hy | hy
          · exact List.mem_append.mpr (Or.inl hy)
          · exact List.mem_append.mpr (Or.inr (List.mem_cons_of_mem x hy))

theorem mergeBooks_eq_general (l r : List String) :
    mergeBooks l r
      = jsSetDedup l ++ jsSetDedup (r.filter (fun x => !(l.contains x))) := by
  rw [mergeBooks, jsSetDedup, dedupAux_append_general l r []]
  refine congrArg (dedupAux [] l ++ ·) ?_
  rw [jsSetDedup]
  have h := dedupAux_filter_seen r l []
  rw [List.append_nil] at h
  rw [h]
  exact dedupAux_congr_seen r (l ++ []) l (by intro x; simp)

theorem mergeBooks_self_absorb (l r : List String) :
    mergeBooks (mergeBooks l r) r = mergeBooks l r := by
  rw [mergeBooks_eq_append (mergeBooks l r) r (nodup_mergeBooks l r)]
  have hfil : r.filter (fun x => !((mergeBooks l r).contains x)) = [] := by
    rw [List.filter_eq_nil_iff]
    intro a ha
    simp [mem_mergeBooks, ha]
  rw [hfil]
  simp [jsSetDedup, dedupAux]

theorem detectBookListConflict_not_cm (lc : Club) (r : RemoteRecord) :
    (detectBookListConflict lc r).map Conflict.ctype
      ≠ some ConflictType.concurrent_modification := by
  simp only [detectBookListConflict]
  split
  · simp
  · simp

theorem storeNodup_setBookClub (uid : String) (s : SyncState) (clubId : String) (c : Club)
    (hs : storeNodup s) (hc : c.books.Nodup) :
    storeNodup (setBookClub uid s clubId c) := by
  have hs' : ∀ p ∈ s.bookClubs, p.2.books.Nodup := hs
  intro p hp
  simp only [setBookClub] at hp
  exact setKey_forall (fun q => q.2.books.Nodup) s.bookClubs clubId _ hs' hc p hp

theorem storeNodup_removeBookClub (uid : String) (s : SyncState) (clubId : String)
    (hs : storeNodup s) :
    storeNodup (removeBookClub uid s clubId).1 := by
  have hs' : ∀ p ∈ s.bookClubs, p.2.books.Nodup := hs
  simp only [removeBookClub]
  split
  · exact hs
  · split
    · intro p hp
      exact removeKey_forall (fun q => q.2.books.Nodup) s.bookClubs clubId hs' p hp
    · exact hs

theorem storeNodup_resolveConcurrentModification (uid : String) (s : SyncState) (c : Conflict)
    (hs : storeNodup s) :
    storeNodup (resolveConcurrentModification uid s c) := by
  simp only [resolveConcurrentModification]
  exact storeNodup_setBookClub uid s c.localClub.id _ hs (nodup_mergeBooks _ _)

theorem storeNodup_resolveBookListConflict (uid : String) (s : SyncState) (c : Conflict)
    (hs : storeNodup s) :
    storeNodup (resolveBookListConflict uid s c) := by
  simp only [resolveBookListConflict]
  exact storeNodup_setBookClub uid s c.localClub.id _ hs (nodup_mergeBooks _ _)

theorem storeNodup_resolveConflict (uid : String) (s : SyncState) (c : Conflict)
    (hs : storeNodup s) :
    storeNodup (resolveConflict uid s c) := by
  unfold resolveConflict
  cases c.ctype
  · exact storeNodup_resolveConcurrentModification uid s c hs
  · exact storeNodup_resolveBookListConflict uid s c hs

theorem storeNodup_handleClubInsertOrUpdate (uid : String) (s : SyncState) (r : RemoteRecord)
    (hs : storeNodup s) (hr : (r.books.getD []).Nodup) :
    storeNodup (handleClubInsertOrUpdate uid s r) := by
  simp only [handleClubInsertOrUpdate]
  split
  · apply storeNodup_setBookClub uid s r.id _ hs
    simpa using hr
  · exact hs

theorem storeNodup_handleClubDelete (uid : String) (s : SyncState) (o : RemoteRecord)
    (hs : storeNodup s) :
    storeNodup (handleClubDelete uid s o).1 := by
  unfold handleClubDelete
  cases hg : getBookClub uid s o.id with
  | none => exact hs
  | some club => exact storeNodup_removeBookClub uid s o.id hs

theorem storeNodup_touchLastUpdate (now : Nat) (p : Payload) (s : SyncState)
    (hs : storeNodup s) :
    storeNodup (touchLastUpdate now p s) := by
  unfold touchLastUpdate
  cases lastUpdateKey p with
  | none => exact hs
  | some k => exact hs

/-- C1: watermark conflict detection.  For a notification about an
entity that exists locally, if the Last-Sync-Time index holds a
watermark for the entity id, detectConflict reports a
concurrent-modification conflict exactly when the remote updated_at is
strictly older than the watermark; with no watermark it never reports
one. -/
theorem detectConflict_watermark (uid : String) (s : SyncState) (r : RemoteRecord)
    (lc : Club) (hl : getBookClub uid s r.id = some lc) :
    (∀ t, s.lastUpdate.lookup r.id = some t →
      (((detectConflict uid s r).map Conflict.ctype
          = some ConflictType.concurrent_modification) ↔ r.updated_at < t))
    ∧ (s.lastUpdate.lookup r.id = none →
      (detectConflict uid s r).map Conflict.ctype
        ≠ some ConflictType.concurrent_modification) := by
  constructor
  · intro t ht
    simp only [detectConflict, hl, ht]
    by_cases hlt : r.updated_at < t
    · rw [if_pos hlt]
      simp [hlt]
    · rw [if_neg hlt]
      constructor
      · intro hcontra
        exact absurd hcontra (detectBookListConflict_not_cm lc r)
      · intro hlt2
        exact absurd hlt2 hlt
  · intro hnone
    simp only [detectConflict, hl, hnone]
    exact detectBookListConflict_not_cm lc r

/-- Witness for C1 at a concrete input: watermark 20, remote updated_at
10, so a concurrent-modification conflict is detected. -/
theorem detectConflict_watermark_instance :
    (detectConflict "bob" exStateWm exRecDup).map Conflict.ctype
      = some ConflictType.concurrent_modification :=
  ((detectConflict_watermark "bob" exStateWm exRecDup exClubShared (by decide)).1
    20 (by decide)).mpr (by decide)

/-- C3 counterexample: merging the same two lists with the merge order
swapped does not yield the list the claim requires; the code keeps the
first argument (the local list) first, so the result is order
dependent. -/
theorem mergeBooks_order_cex :
    mergeBooks ["B", "C"] ["A", "B"] = ["B", "C", "A"]
    ∧ mergeBooks ["B", "C"] ["A", "B"] ≠ ["A", "B", "C"] := by decide

/-- C3 amended: merging local A,B with remote B,C yields exactly A,B,C;
repeating the merge of an already-merged list with the same remote list
changes nothing (for all inputs); under the swapped merge order the
result has the same members and is still duplicate-free, though its
order differs. -/
theorem mergeBooks_union_spec :
    mergeBooks ["A", "B"] ["B", "C"] = ["A", "B", "C"]
    ∧ (∀ l r : List String, mergeBooks (mergeBooks l r) r = mergeBooks l r)
    ∧ (∀ x : String, x ∈ mergeBooks ["B", "C"] ["A", "B"]
        ↔ x ∈ mergeBooks ["A", "B"] ["B", "C"])
    ∧ (mergeBooks ["B", "C"] ["A", "B"]).Nodup := by
  refine ⟨by decide, mergeBooks_self_absorb, ?_, by decide⟩
  intro x
  rw [mem_mergeBooks, mem_mergeBooks]
  tauto

/-- C4: self-echo suppression.  A notification whose new record carries
the local user id leaves the dispatcher without touching the store, the
watermark index, or the conflict resolver. -/
theorem selfEcho_suppression (uid : String) (now : Nat) (s : SyncState) (p : Payload)
    (r : RemoteRecord) (hr : p.newRec = some r) (hown : r.user_id = uid) :
    handleBookClubUpdate uid now s p
      = { state := s, navAway := false, mergeResolved := false } := by
  simp [handleBookClubUpdate, hr, hown]

/-- Witness for C4: alice receives the echo of her own INSERT; the state
is unchanged. -/
theorem selfEcho_suppression_instance :
    handleBookClubUpdate "alice" 100 exStateOne exPayloadIns
      = { state := exStateOne, navAway := false, mergeResolved := false } :=
  selfEcho_suppression "alice" 100 exStateOne exPayloadIns exRecDup rfl rfl

/-- C5 counterexample: the reconnection counter is a single manager-wide
field, not a per-entity-subscription one.  After three failures of club
X, the first failure of club Y computes delay 8000 ms, not the 1000 ms
that a counter starting at 0 for the Y subscription would give. -/
theorem reconnect_counter_shared_cex :
    (attemptReconnect (reconnectRun 3) "Y").1.pendingTimers.map Prod.snd
      = [1000, 2000, 4000, 8000]
    ∧ (attemptReconnect (reconnectRun 3) "Y").1.pendingTimers.getLast?
      = some ("Y", 8000)
    ∧ reconnectDelay * 2 ^ (1 - 1) = 1000
    ∧ (8000 : Nat) ≠ 1000 := by decide

/-- C5 amended: the counter is manager-wide and starts at 0 when the
manager is constructed.  Five consecutive failures schedule delays
1000, 2000, 4000, 8000, 16000 ms; a sixth failure schedules nothing and
emits the terminal notice; a SUBSCRIBED status resets the counter to 0;
and the club id passed to attemptReconnect never influences the
counter. -/
theorem backoff_policy_spec :
    (reconnectRun 5).pendingTimers.map Prod.snd = [1000, 2000, 4000, 8000, 16000]
    ∧ attemptReconnect (reconnectRun 5) "X"
        = (reconnectRun 5, { noEff with terminalNotices := 1 })
    ∧ (∀ (s : RtState) (clubId : String),
        (handleSubscriptionStatus s clubId "SUBSCRIBED").1.reconnectAttempts = 0)
    ∧ (∀ (s : RtState) (c₁ c₂ : String),
        (attemptReconnect s c₁).1.reconnectAttempts
          = (attemptReconnect s c₂).1.reconnectAttempts) := by
  refine ⟨by decide, by decide, ?_, ?_⟩
  · intro s clubId
    simp only [handleSubscriptionStatus]
    cases h : s.subscriptions.lookup clubId <;> simp [h]
  · intro s c₁ c₂
    by_cases h : s.reconnectAttempts ≥ maxReconnectAttempts <;>
      simp [attemptReconnect, h]

/-- C6: code bug.  With two active subscriptions X and Y, the browser
online handler calls subscribeToBookClub for each, but both calls
early-return because the registry still holds the entries, so no channel
subscription is re-issued and the state is unchanged; only the single
full resync happens. -/
theorem resubscribeAll_noop_bug :
    (handleConnectionRestored exRtStateXY).1 = exRtStateXY
    ∧ (handleConnectionRestored exRtStateXY).2.channelCreations = []
    ∧ (handleConnectionRestored exRtStateXY).2.presenceCreations = []
    ∧ (handleConnectionRestored exRtStateXY).2.resyncs = 1 := by decide

/-- C7: code bug.  unsubscribeFromBookClub succeeds and removes the
registry entry, but the reconnect timer scheduled by the earlier
TIMED_OUT is not cancelled (the source keeps no handle to it); when it
fires it re-subscribes, and the registry regains an entry for the club
without any new explicit subscribe call. -/
theorem unsubscribe_cancellation_bug :
    (unsubscribeFromBookClub exRtTimedOut "C").2.1 = true
    ∧ ((unsubscribeFromBookClub exRtTimedOut "C").1.subscriptions.lookup "C") = none
    ∧ (unsubscribeFromBookClub exRtTimedOut "C").1.pendingTimers = [("C", 1000)]
    ∧ ((fireReconnectTimer (unsubscribeFromBookClub exRtTimedOut "C").1 "C").1.subscriptions.lookup "C").isSome
        = true
    ∧ (fireReconnectTimer (unsubscribeFromBookClub exRtTimedOut "C").1 "C").2.2.channelCreations
        = ["C"] := by decide

/-- C8: code bug.  A DELETE notification for a club the local viewer
sees only as shared does not remove it: AppState.removeBookClub refuses
because the viewer is not the owner, yet the handler still signals
navigation-away for the focused club.  The store keeps the club. -/
theorem remoteDelete_sharedView_bug :
    ((handleBookClubUpdate "bob" 100 exStateOne exPayloadDel).state.bookClubs.lookup "c1")
      = some exClubShared
    ∧ (handleBookClubUpdate "bob" 100 exStateOne exPayloadDel).navAway = true := by decide

/-- C9 counterexample: starting from a store satisfying the
no-duplicate-items invariant, a direct-applied INSERT whose payload
carries a duplicated book list writes the duplicates into the store
verbatim. -/
theorem duplicate_items_cex :
    (∀ p ∈ exStateEmpty.bookClubs, p.2.books.Nodup)
    ∧ ((handleBookClubUpdate "bob" 100 exStateEmpty exPayloadIns).state.bookClubs.lookup "c1").map Club.books
        = some ["A", "B", "B"]
    ∧ ¬ (["A", "B", "B"] : List String).Nodup := by decide

/-- C10: subscribe idempotence.  In collaborative mode, calling
subscribeToBookClub for a club id already present in the registry
returns true and changes nothing: no second channel, no presence
registration, no state change. -/
theorem subscribe_idempotent (s : RtState) (clubId : String)
    (hc : s.collab = true) (hsub : (s.subscriptions.lookup clubId).isSome = true) :
    subscribeToBookClub s clubId = (s, true, noEff) := by
  simp [subscribeToBookClub, hc, hsub]

/-- Witness for C10 at a concrete registry with X subscribed. -/
theorem subscribe_idempotent_instance :
    subscribeToBookClub exRtSubbed "X" = (exRtSubbed, true, noEff) :=
  subscribe_idempotent exRtSubbed "X" rfl rfl

/-- C2 counterexample: the concurrent-modification resolver takes only
the name from the remote record; other scalar metadata stays local.
Here the stored createdAt is the local 1 while the remote created_at is
2, so the claim that scalar metadata is taken from the remote record
fails. -/
theorem resolveConcurrentModification_metadata_cex :
    ((resolveConcurrentModification "bob" exStateEmpty exConflictCM).bookClubs.lookup "c1").map Club.createdAt
      = some 1
    ∧ exConflictCM.remoteRecord.created_at = 2
    ∧ (1 : Nat) ≠ 2 := by decide

/-- C2 amended: the entity written back by the concurrent-modification
resolver has as items the union of the two book lists, duplicate-free:
the local items first in original first-occurrence order, then the
remote-only items in remote first-occurrence order; its name comes from
the remote record; its currentSelection is the remote one when the
remote provided a non-empty one and otherwise (remote selection absent
or empty) the retained local one; and every other scalar field (id,
createdAt, ownerId) is retained from the local record, ownerId subject
to the store fallback to the current user id when the local ownerId is
empty.  Stated for all conflicts, with no side conditions. -/
theorem resolveConcurrentModification_spec (uid : String) (s : SyncState) (c : Conflict) :
    ∃ merged : Club,
      (resolveConcurrentModification uid s c).bookClubs.lookup c.localClub.id = some merged
      ∧ merged.books = jsSetDedup c.localClub.books ++
          jsSetDedup ((c.remoteRecord.books.getD []).filter
            (fun b => !(c.localClub.books.contains b)))
      ∧ merged.books.Nodup
      ∧ (∀ b, b ∈ merged.books ↔ b ∈ c.localClub.books ∨ b ∈ c.remoteRecord.books.getD [])
      ∧ merged.name = c.remoteRecord.name
      ∧ (∀ v, c.remoteRecord.current_selection = some v → v ≠ "" →
          merged.currentSelection = some v)
      ∧ ((c.remoteRecord.current_selection = none
            ∨ c.remoteRecord.current_selection = some "") →
          merged.currentSelection = c.localClub.currentSelection)
      ∧ merged.id = c.localClub.id
      ∧ merged.createdAt = c.localClub.createdAt
      ∧ merged.userId = (if c.localClub.userId = "" then uid else c.localClub.userId) := by
  simp only [resolveConcurrentModification, setBookClub]
  refine ⟨_, lookup_setKey_self _ _ _, ?_, ?_, ?_, rfl, ?_, ?_, rfl, rfl, rfl⟩
  · exact mergeBooks_eq_general _ _
  · exact nodup_mergeBooks _ _
  · intro b
    exact mem_mergeBooks _ _ b
  · intro v hv hne
    simp [jsOrSelection, hv, hne]
  · rintro (h | h) <;> simp [jsOrSelection, h]

/-- Witness for C2 amended at the concrete conflict fixture. -/
theorem resolveConcurrentModification_spec_instance :
    ∃ merged : Club,
      (resolveConcurrentModification "bob" exStateEmpty exConflictCM).bookClubs.lookup
          exConflictCM.localClub.id = some merged
      ∧ merged.books = jsSetDedup exConflictCM.localClub.books ++
          jsSetDedup ((exConflictCM.remoteRecord.books.getD []).filter
            (fun b => !(exConflictCM.localClub.books.contains b)))
      ∧ merged.books.Nodup
      ∧ (∀ b, b ∈ merged.books
          ↔ b ∈ exConflictCM.localClub.books ∨ b ∈ exConflictCM.remoteRecord.books.getD [])
      ∧ merged.name = exConflictCM.remoteRecord.name
      ∧ (∀ v, exConflictCM.remoteRecord.current_selection = some v → v ≠ "" →
          merged.currentSelection = some v)
      ∧ ((exConflictCM.remoteRecord.current_selection = none
            ∨ exConflictCM.remoteRecord.current_selection = some "") →
          merged.currentSelection = exConflictCM.localClub.currentSelection)
      ∧ merged.id = exConflictCM.localClub.id
      ∧ merged.createdAt = exConflictCM.localClub.createdAt
      ∧ merged.userId =
          (if exConflictCM.localClub.userId = "" then "bob" else exConflictCM.localClub.userId) :=
  resolveConcurrentModification_spec "bob" exStateEmpty exConflictCM

/-- C9 amended: both merge paths preserve the store-wide
no-duplicate-items invariant unconditionally, and the whole dispatcher
preserves it provided the incoming payload book list is itself
duplicate-free; the direct-apply path copies the payload items verbatim,
which is why that proviso is needed. -/
theorem nodup_invariant_spec :
    (∀ (uid : String) (s : SyncState) (c : Conflict),
      storeNodup s → storeNodup (resolveConcurrentModification uid s c))
    ∧ (∀ (uid : String) (s : SyncState) (c : Conflict),
      storeNodup s → storeNodup (resolveBookListConflict uid s c))
    ∧ (∀ (uid : String) (now : Nat) (s : SyncState) (p : Payload),
      storeNodup s →
      (∀ r, p.newRec = some r → (r.books.getD []).Nodup) →
      storeNodup (handleBookClubUpdate uid now s p).state) := by
  refine ⟨fun uid s c hs => storeNodup_resolveConcurrentModification uid s c hs,
    fun uid s c hs => storeNodup_resolveBookListConflict uid s c hs, ?_⟩
  intro uid now s p hs hp
  obtain ⟨ev, newRec, oldRec⟩ := p
  cases newRec with
  | some r =>
    have hr : (r.books.getD []).Nodup := hp r rfl
    by_cases hecho : (r.user_id == uid) = true
    · simp only [handleBookClubUpdate, hecho]
      exact hs
    · simp only [handleBookClubUpdate, hecho]
      cases hconf : detectConflict uid s r with
      | some c =>
        simp only [hconf]
        exact storeNodup_resolveConflict uid s c hs
      | none =>
        simp only [hconf]
        cases ev with
        | INSERT =>
          exact storeNodup_touchLastUpdate _ _ _
            (storeNodup_handleClubInsertOrUpdate uid s r hs hr)
        | UPDATE =>
          exact storeNodup_touchLastUpdate _ _ _
            (storeNodup_handleClubInsertOrUpdate uid s r hs hr)
        | DELETE =>
          cases oldRec with
          | some o =>
            exact storeNodup_touchLastUpdate _ _ _
              (storeNodup_handleClubDelete uid s o hs)
          | none => exact hs
        | unknownEvent => exact storeNodup_touchLastUpdate _ _ _ hs
  | none =>
    simp only [handleBookClubUpdate]
    cases ev with
    | INSERT => exact hs
    | UPDATE => exact hs
    | DELETE =>
      cases oldRec with
      | some o =>
        exact storeNodup_touchLastUpdate _ _ _
          (storeNodup_handleClubDelete uid s o hs)
      | none => exact hs
    | unknownEvent => exact storeNodup_touchLastUpdate _ _ _ hs

/-- Witness for C9 amended: the dispatcher run on the DELETE fixture
keeps the invariant. -/
theorem nodup_invariant_spec_instance :
    storeNodup (handleBookClubUpdate "bob" 100 exStateOne exPayloadDel).state :=
  nodup_invariant_spec.2.2 "bob" 100 exStateOne exPayloadDel
    (by unfold storeNodup; decide)
    (by intro r hr; simp [exPayloadDel] at hr)
